import Mathlib

/-!
Verification of the hybrid retrieval engine of the course-search services
(RAG/retriever.py and information-retrieval/retriever.py, together with the
index builders RAG/indexer.py and information-retrieval/indexer.py).

Modelling conventions:
* Similarity scores are exact rationals; floating-point arithmetic in the
  source is idealized as exact arithmetic (the spec states its equalities
  modulo floating-point tolerance).
* The external collaborators (the fitted sklearn TfidfVectorizer's
  `transform`, the SentenceTransformer's `encode`, and sklearn's
  `cosine_similarity` kernel) are opaque functions: the first two are state
  fields of the retriever exactly as in `__init__`, the similarity kernel is
  a parameter `sim` of every operation.  Facts the proofs need about the real
  kernel (for example that the zero query vector has similarity 0 with every
  row, sklearn's documented zero-norm convention) are taken as hypotheses.
* `np.argsort` sorts ascending.  Its default quicksort is unstable in
  general, but for arrays of at most 16 elements it runs its insertion-sort
  path, which is stable.  The model resolves ties by ascending position
  (the stable order); every theorem whose truth depends on this tie order
  carries an explicit hypothesis keeping the scored array in that stable
  regime (length at most 16), and the remaining uses of the model are
  tie-order independent: result counts, membership, descending-value
  ordering, and identical output for identical score vectors.  The source
  reverses the ascending order with `[::-1]`.
* `top_k` is a Python int, so it is modelled as an integer, and the slices
  `[:top_k]` and `[1:top_k+1]` are modelled with Python's slice semantics,
  including the clamped negative-endpoint cases (`pyTake`, `pySliceFrom1`).
* Python exceptions (`ValueError`) are modelled with `Except String`.
-/

namespace CourseSearch

/-- One metadata record of the course-level index, as produced by
`build_course_documents` in RAG/indexer.py: course code, title, and the
auxiliary `fields` mapping (modelled as an association list). -/
structure CourseMeta where
  course_code : String
  title : String
  fields : List (String × String)
deriving DecidableEq, Inhabited

/-- One search result dict of `CourseRetriever.search` / `find_similar`
(RAG/retriever.py): course_code, title, score and the fields mapping. -/
structure SearchResult where
  course_code : String
  title : String
  score : ℚ
  fields : List (String × String)
deriving DecidableEq

/-- The similarity kernel: sklearn's `cosine_similarity` restricted to one
query row against one matrix row.  It is an external collaborator, so the
development is parametric in it. -/
def SimKernel : Type := List ℚ → List ℚ → ℚ

/-- The retriever state, field for field the dict unpacked by
`CourseRetriever.__init__` (RAG/retriever.py lines 14-21).  The fitted
vectorizer's `transform` and the embedding model's `encode` are opaque
functions from query text to a vector. -/
structure CourseRetriever where
  texts : List String
  metadata : List CourseMeta
  course_codes : List String
  tfidf_vectorizer : String → List ℚ
  tfidf_matrix : List (List ℚ)
  model : String → List ℚ
  embeddings : List (List ℚ)

/-- Read a score vector entry, `scores[i]`. -/
def sGet (s : List ℚ) (i : ℕ) : ℚ := s.getD i 0

/-- The comparison the `np.argsort` model uses on positions of `s`:
ascending score, ties resolved by ascending position.  On the distinct
positions `0, ..., len s - 1` this is a linear order, so it determines the
sorted output uniquely, whatever sorting algorithm produces it.  The tie
resolution is exactly numpy's behaviour on arrays of at most 16 elements
(the insertion-sort path of its default quicksort, which is stable); on
larger arrays numpy's quicksort gives no tie-order guarantee, so theorems
that depend on the tie order restrict to the small regime. -/
def argsortRel (s : List ℚ) (i j : ℕ) : Prop :=
  sGet s i < sGet s j ∨ (sGet s i = sGet s j ∧ i ≤ j)

instance argsortRel.decidable (s : List ℚ) : DecidableRel (argsortRel s) :=
  fun i j =>
    inferInstanceAs (Decidable (sGet s i < sGet s j ∨ (sGet s i = sGet s j ∧ i ≤ j)))

/-- Model of `np.argsort(s)`: the positions `0, ..., len s - 1` sorted by
`argsortRel`. -/
def argsort (s : List ℚ) : List ℕ :=
  (List.range s.length).insertionSort (argsortRel s)

/-- Model of `np.argsort(s)[::-1]`: descending score, ties in descending
position order. -/
def argsortDesc (s : List ℚ) : List ℕ := (argsort s).reverse

/-- Python slice `l[:k]` for an int `k`: the first `k` elements when
`k >= 0`, and everything but the last `|k|` elements when `k < 0` (the
stop index is clamped, so an out-of-range `k` never errors). -/
def pyTake {α : Type} (k : ℤ) (l : List α) : List α :=
  l.take (if 0 ≤ k then k.toNat else ((l.length : ℤ) + k).toNat)

/-- Python slice `l[1:k+1]` for an int `k`: drop the first element, then
keep `k` elements when `k + 1 >= 0`; a negative stop `k + 1 < 0` counts
from the end, keeping the elements at positions `1, ..., len l + k`.  Both
endpoints are clamped, so no value of `k` errors. -/
def pySliceFrom1 {α : Type} (k : ℤ) (l : List α) : List α :=
  (l.drop 1).take (if -1 ≤ k then k.toNat else ((l.length : ℤ) + k).toNat)

/-- The `_sparse_search` method (RAG/retriever.py lines 113-117): transform
the query with the fitted vectorizer and take the similarity with every row
of the TF-IDF matrix. -/
def CourseRetriever.sparseSearch (sim : SimKernel) (r : CourseRetriever)
    (query : String) : List ℚ :=
  r.tfidf_matrix.map (fun row => sim (r.tfidf_vectorizer query) row)

/-- The `_dense_search` method (RAG/retriever.py lines 119-123): encode the
query with the model and take the similarity with every document embedding. -/
def CourseRetriever.denseSearch (sim : SimKernel) (r : CourseRetriever)
    (query : String) : List ℚ :=
  r.embeddings.map (fun row => sim (r.model query) row)

/-- Elementwise hybrid fusion `alpha * dense_scores + (1 - alpha) * sparse_scores`
(RAG/retriever.py line 43). -/
def fuse (alpha : ℚ) (dense sparse : List ℚ) : List ℚ :=
  List.zipWith (fun d s => alpha * d + (1 - alpha) * s) dense sparse

/-- The result dict built for index `idx` (RAG/retriever.py lines 52-58). -/
def mkResult (r : CourseRetriever) (scores : List ℚ) (idx : ℕ) : SearchResult :=
  { course_code := r.course_codes.getD idx ""
    title := (r.metadata.getD idx default).title
    score := sGet scores idx
    fields := (r.metadata.getD idx default).fields }

/-- The result-building loop over a list of ranked indices
(RAG/retriever.py lines 51-58). -/
def rankResults (r : CourseRetriever) (scores : List ℚ) (idxs : List ℕ) :
    List SearchResult :=
  idxs.map (mkResult r scores)

/-- The mode dispatch of `search` (RAG/retriever.py lines 36-45): the
`if/elif/else` chain selecting the score vector, with the `else` branch
raising `ValueError(f"Invalid mode: {mode}")`. -/
def CourseRetriever.searchScores (sim : SimKernel) (r : CourseRetriever)
    (query mode : String) (alpha : ℚ) : Except String (List ℚ) :=
  if mode = "sparse" then .ok (r.sparseSearch sim query)
  else if mode = "dense" then .ok (r.denseSearch sim query)
  else if mode = "hybrid" then
    .ok (fuse alpha (r.denseSearch sim query) (r.sparseSearch sim query))
  else .error ("Invalid mode: " ++ mode)

/-- `CourseRetriever.search` (RAG/retriever.py lines 23-60): pick the score
vector per mode, rank all documents by `np.argsort(scores)[::-1]`, slice to
`[:top_k]` and build result dicts. -/
def CourseRetriever.search (sim : SimKernel) (r : CourseRetriever)
    (query mode : String) (top_k : ℤ) (alpha : ℚ) :
    Except String (List SearchResult) :=
  (r.searchScores sim query mode alpha).map fun scores =>
    rankResults r scores (pyTake top_k (argsortDesc scores))

/-- The mode dispatch of `find_similar` (RAG/retriever.py lines 81-97),
scoring the stored vectors of document `query_idx` against all documents. -/
def CourseRetriever.findSimilarScores (sim : SimKernel) (r : CourseRetriever)
    (query_idx : ℕ) (mode : String) (alpha : ℚ) : Except String (List ℚ) :=
  if mode = "sparse" then
    .ok (r.tfidf_matrix.map (fun row => sim (r.tfidf_matrix.getD query_idx []) row))
  else if mode = "dense" then
    .ok (r.embeddings.map (fun row => sim (r.embeddings.getD query_idx []) row))
  else if mode = "hybrid" then
    .ok (fuse alpha
      (r.embeddings.map (fun row => sim (r.embeddings.getD query_idx []) row))
      (r.tfidf_matrix.map (fun row => sim (r.tfidf_matrix.getD query_idx []) row)))
  else .error ("Invalid mode: " ++ mode)

/-- `CourseRetriever.find_similar` (RAG/retriever.py lines 62-111):
`self.course_codes.index(course_code)` with `except ValueError: return []`,
then the mode dispatch, then `np.argsort(similarities)[::-1][1:top_k+1]`
and result building. -/
def CourseRetriever.find_similar (sim : SimKernel) (r : CourseRetriever)
    (course_code mode : String) (top_k : ℤ) (alpha : ℚ) :
    Except String (List SearchResult) :=
  if course_code ∈ r.course_codes then
    let query_idx := r.course_codes.indexOf course_code
    (r.findSimilarScores sim query_idx mode alpha).map fun sims =>
      rankResults r sims (pySliceFrom1 top_k (argsortDesc sims))
  else .ok []

/-- Well-formedness established by the one-shot index build
(`build_all_indices` in RAG/indexer.py): the document sequences are parallel
(one row per document in each component) and course codes are unique. -/
structure CourseRetriever.WF (r : CourseRetriever) : Prop where
  meta_len : r.metadata.length = r.course_codes.length
  tfidf_len : r.tfidf_matrix.length = r.course_codes.length
  emb_len : r.embeddings.length = r.course_codes.length
  codes_nodup : r.course_codes.Nodup

/-- One metadata record of the objective-level index
(information-retrieval/indexer.py `build_objective_documents`). -/
structure ObjectiveMeta where
  course_id : String
  title : String
  objective : String
deriving DecidableEq, Inhabited

/-- One result dict of `ObjectiveRetriever.search`
(information-retrieval/retriever.py lines 163-171). -/
structure ObjectiveResult where
  course_id : String
  title : String
  objective : String
  score : ℚ
deriving DecidableEq

/-- The objective-level retriever state
(information-retrieval/retriever.py lines 128-134). -/
structure ObjectiveRetriever where
  texts : List String
  metadata : List ObjectiveMeta
  tfidf_vectorizer : String → List ℚ
  tfidf_matrix : List (List ℚ)
  model : String → List ℚ
  embeddings : List (List ℚ)

/-- Parallel-sequence well-formedness of the objective index after the
one-shot build. -/
structure ObjectiveRetriever.WF (r : ObjectiveRetriever) : Prop where
  tfidf_len : r.tfidf_matrix.length = r.metadata.length
  emb_len : r.embeddings.length = r.metadata.length

/-- The `_sparse_search` method of `ObjectiveRetriever`
(information-retrieval/retriever.py lines 175-179). -/
def ObjectiveRetriever.sparseSearch (sim : SimKernel) (r : ObjectiveRetriever)
    (query : String) : List ℚ :=
  r.tfidf_matrix.map (fun row => sim (r.tfidf_vectorizer query) row)

/-- The `_dense_search` method of `ObjectiveRetriever`
(information-retrieval/retriever.py lines 181-185). -/
def ObjectiveRetriever.denseSearch (sim : SimKernel) (r : ObjectiveRetriever)
    (query : String) : List ℚ :=
  r.embeddings.map (fun row => sim (r.model query) row)

/-- The mode dispatch of `ObjectiveRetriever.search`
(information-retrieval/retriever.py lines 149-158). -/
def ObjectiveRetriever.searchScores (sim : SimKernel) (r : ObjectiveRetriever)
    (query mode : String) (alpha : ℚ) : Except String (List ℚ) :=
  if mode = "sparse" then .ok (r.sparseSearch sim query)
  else if mode = "dense" then .ok (r.denseSearch sim query)
  else if mode = "hybrid" then
    .ok (fuse alpha (r.denseSearch sim query) (r.sparseSearch sim query))
  else .error ("Invalid mode: " ++ mode)

/-- The result dict built for index `idx`
(information-retrieval/retriever.py lines 164-171). -/
def mkObjectiveResult (r : ObjectiveRetriever) (scores : List ℚ) (idx : ℕ) :
    ObjectiveResult :=
  { course_id := (r.metadata.getD idx default).course_id
    title := (r.metadata.getD idx default).title
    objective := (r.metadata.getD idx default).objective
    score := sGet scores idx }

/-- `ObjectiveRetriever.search` (information-retrieval/retriever.py
lines 136-173): same ranking pipeline as the course-level search. -/
def ObjectiveRetriever.search (sim : SimKernel) (r : ObjectiveRetriever)
    (query mode : String) (top_k : ℤ) (alpha : ℚ) :
    Except String (List ObjectiveResult) :=
  (r.searchScores sim query mode alpha).map fun scores =>
    (pyTake top_k (argsortDesc scores)).map (mkObjectiveResult r scores)

/-- A query operation against the built index: the two public read
operations of the retriever. -/
inductive QueryOp where
  | search : String → String → ℤ → ℚ → QueryOp
  | findSimilar : String → String → ℤ → ℚ → QueryOp

/-- State-passing embedding of one method call on the retriever: the method
body of `search` / `find_similar` contains no assignment to any `self`
attribute, so the state the method leaves behind is the state it received. -/
def runQuery (sim : SimKernel) (r : CourseRetriever) :
    QueryOp → CourseRetriever × Except String (List SearchResult)
  | .search q m k a => (r, r.search sim q m k a)
  | .findSimilar c m k a => (r, r.find_similar sim c m k a)

/-- The retriever state after an arbitrary sequence of query operations. -/
def runQueries (sim : SimKernel) (r : CourseRetriever) :
    List QueryOp → CourseRetriever
  | [] => r
  | op :: ops => runQueries sim (runQuery sim r op).1 ops

/-- A raw course record of the JSONL catalog as read by RAG/indexer.py:
every field access in `build_course_text` goes through `.get` with a
default, so each field is optional. -/
structure RawCourse where
  course_code : Option String
  title : Option String
  fields : Option (List (String × String))
  learning_objectives : Option (List String)
  content : Option String
deriving DecidableEq

/-- `build_course_text` (RAG/indexer.py lines 36-66), parametric in the
external `json.dumps` rendering: title via `.get('title','')`; if the
`fields` mapping is non-empty, a "Taught by" phrase when `Responsible` is
present plus the JSON dump; the joined learning objectives when non-empty;
the body content truncated to 2000 characters when non-empty; all joined
with newlines. -/
def build_course_text (dumps : List (String × String) → String)
    (course : RawCourse) : String :=
  let p1 : List String := [course.title.getD ""]
  let fields := course.fields.getD []
  let p2 := p1 ++ (if fields.isEmpty then [] else
    (match fields.lookup "Responsible" with
     | some t => ["Taught by " ++ t]
     | none => []) ++ [dumps fields])
  let objectives := course.learning_objectives.getD []
  let p3 := p2 ++ (if objectives.isEmpty then []
    else [String.intercalate " " objectives])
  let content := course.content.getD ""
  let p4 := p3 ++ (if content.isEmpty then [] else [content.take 2000])
  String.intercalate "\n" p4

/-- `build_course_documents` (RAG/indexer.py lines 69-93): texts, metadata
and course codes built in catalog order, all lookups defaulted. -/
def build_course_documents (dumps : List (String × String) → String) :
    List RawCourse → List String × List CourseMeta × List String
  | [] => ([], [], [])
  | course :: rest =>
    let (ts, ms, ids) := build_course_documents dumps rest
    (build_course_text dumps course :: ts,
     { course_code := course.course_code.getD ""
       title := course.title.getD ""
       fields := course.fields.getD [] } :: ms,
     course.course_code.getD "" :: ids)

/-- A record with every missing field replaced by the corresponding empty
default, the degradation the spec describes. -/
def fillDefaults (c : RawCourse) : RawCourse :=
  { course_code := some (c.course_code.getD "")
    title := some (c.title.getD "")
    fields := some (c.fields.getD [])
    learning_objectives := some (c.learning_objectives.getD [])
    content := some (c.content.getD "") }

/-- A raw course record of the JSON catalog as read by
information-retrieval/indexer.py `build_course_documents`; only the two keys
that function reads are modelled, each optional since a raw record may lack
it. -/
structure IRCourseData where
  title : Option String
  learning_objectives : Option (List String)
deriving DecidableEq

/-- One metadata record of the course-level index
(information-retrieval/indexer.py lines 41-44). -/
structure IRMeta where
  course_id : String
  title : String
deriving DecidableEq

/-- Python dict subscript `record[key]`: raises `KeyError` when the key is
missing. -/
def dictGet {A : Type} (v : Option A) (key : String) : Except String A :=
  match v with
  | some x => .ok x
  | none => .error ("KeyError: " ++ key)

/-- `build_course_documents` of information-retrieval/indexer.py
(lines 20-47): iterates the catalog in order, reading
`course_data['title']` and `course_data['learning-objectives']` by bare
subscript, so a record missing either key raises `KeyError`. -/
def build_course_documents_ir :
    List (String × IRCourseData) →
    Except String (List String × List IRMeta × List String)
  | [] => .ok ([], [], [])
  | (course_id, course_data) :: rest => do
    let title ← dictGet course_data.title "title"
    let objectives ← dictGet course_data.learning_objectives "learning-objectives"
    let text := title ++ "\n" ++ String.intercalate "\n" objectives
    let (ts, ms, ids) ← build_course_documents_ir rest
    .ok (text :: ts, { course_id := course_id, title := title } :: ms,
      course_id :: ids)

/-- A concrete similarity kernel for witnesses and counterexamples.  It
agrees with sklearn's `cosine_similarity` on the concrete indexes below:
a zero vector has similarity 0 with everything (sklearn's zero-norm
convention), and the stored rows there are unit vectors, so two equal rows
have cosine 1. -/
def unitSim : SimKernel := fun u v =>
  if (∀ x ∈ u, x = 0) ∨ (∀ x ∈ v, x = 0) then 0
  else if u = v then 1 else 0

/-- A concrete similarity kernel for witnesses of the ranking-pipeline
theorems (which hold for every kernel): score a row by its first
coordinate. -/
def headSim : SimKernel := fun _ v => v.headD 0

/-- A concrete two-document index whose two documents are exact duplicates
(identical stored vectors) and whose vectorizer sends every query to the
zero vector. -/
def dupR : CourseRetriever :=
  { texts := ["doc a", "doc b"]
    metadata := [{ course_code := "A", title := "Course A", fields := [] },
                 { course_code := "B", title := "Course B", fields := [] }]
    course_codes := ["A", "B"]
    tfidf_vectorizer := fun _ => [0]
    tfidf_matrix := [[1], [1]]
    model := fun _ => [1]
    embeddings := [[1], [1]] }

/-- A concrete three-document index with pairwise distinct scores against
the fixed query vectors of its vectorizer and model. -/
def distinctR : CourseRetriever :=
  { texts := ["doc a", "doc b", "doc c"]
    metadata := [{ course_code := "A", title := "Course A", fields := [] },
                 { course_code := "B", title := "Course B", fields := [] },
                 { course_code := "C", title := "Course C", fields := [] }]
    course_codes := ["A", "B", "C"]
    tfidf_vectorizer := fun _ => [1, 0]
    tfidf_matrix := [[1, 0], [0, 1], [3, 4]]
    model := fun _ => [1]
    embeddings := [[2], [1], [3]] }

/-- A concrete objective-level index with two objective documents. -/
def distinctObjR : ObjectiveRetriever :=
  { texts := ["t1 - o1", "t1 - o2"]
    metadata := [{ course_id := "A", title := "T1", objective := "o1" },
                 { course_id := "A", title := "T1", objective := "o2" }]
    tfidf_vectorizer := fun _ => [1, 0]
    tfidf_matrix := [[1, 0], [0, 1]]
    model := fun _ => [1]
    embeddings := [[2], [1]] }

instance {ε α : Type} [DecidableEq ε] [DecidableEq α] : DecidableEq (Except ε α) :=
  fun x y =>
  match x, y with
  | .ok a, .ok b =>
    if h : a = b then .isTrue (by rw [h])
    else .isFalse (by intro hc; cases hc; exact h rfl)
  | .ok _, .error _ => .isFalse (by intro hc; cases hc)
  | .error _, .ok _ => .isFalse (by intro hc; cases hc)
  | .error e, .error f =>
    if h : e = f then .isTrue (by rw [h])
    else .isFalse (by intro hc; cases hc; exact h rfl)

theorem argsortRel_trans (s : List ℚ) {i j k : ℕ} (hij : argsortRel s i j)
    (hjk : argsortRel s j k) : argsortRel s i k := by
  rcases hij with h | ⟨he, hle⟩ <;> rcases hjk with h' | ⟨he', hle'⟩
  · exact Or.inl (lt_trans h h')
  · exact Or.inl (lt_of_lt_of_le h (le_of_eq he'))
  · exact Or.inl (lt_of_le_of_lt (le_of_eq he) h')
  · exact Or.inr ⟨he.trans he', le_trans hle hle'⟩

theorem argsortRel_total (s : List ℚ) (i j : ℕ) :
    argsortRel s i j ∨ argsortRel s j i := by
  rcases lt_trichotomy (sGet s i) (sGet s j) with h | h | h
  · exact Or.inl (Or.inl h)
  · rcases le_total i j with hle | hle
    · exact Or.inl (Or.inr ⟨h, hle⟩)
    · exact Or.inr (Or.inr ⟨h.symm, hle⟩)
  · exact Or.inr (Or.inl h)

theorem argsort_perm (s : List ℚ) : (argsort s).Perm (List.range s.length) :=
  List.perm_insertionSort _ _

theorem argsort_length (s : List ℚ) : (argsort s).length = s.length := by
  simpa using (argsort_perm s).length_eq

theorem argsort_sorted (s : List ℚ) : (argsort s).Pairwise (argsortRel s) := by
  haveI : IsTotal ℕ (argsortRel s) := ⟨argsortRel_total s⟩
  haveI : IsTrans ℕ (argsortRel s) := ⟨fun _ _ _ hab hbc => argsortRel_trans s hab hbc⟩
  exact List.sorted_insertionSort (argsortRel s) (List.range s.length)

theorem argsort_nodup (s : List ℚ) : (argsort s).Nodup :=
  (List.nodup_range s.length).perm (argsort_perm s).symm

theorem argsortDesc_length (s : List ℚ) : (argsortDesc s).length = s.length := by
  simp [argsortDesc, argsort_length]

theorem argsortDesc_nodup (s : List ℚ) : (argsortDesc s).Nodup := by
  rw [argsortDesc, List.nodup_reverse]
  exact argsort_nodup s

theorem mem_argsortDesc (s : List ℚ) {i : ℕ} : i ∈ argsortDesc s ↔ i < s.length := by
  rw [argsortDesc, List.mem_reverse, (argsort_perm s).mem_iff, List.mem_range]

theorem argsortDesc_sorted (s : List ℚ) :
    (argsortDesc s).Pairwise (fun i j => argsortRel s j i) := by
  rw [argsortDesc, List.pairwise_reverse]
  exact argsort_sorted s

theorem argsortDesc_strict (s : List ℚ) :
    (argsortDesc s).Pairwise
      (fun i j => sGet s j < sGet s i ∨ (sGet s j = sGet s i ∧ j < i)) := by
  have h := (argsortDesc_sorted s).and (argsortDesc_nodup s)
  refine List.Pairwise.imp ?_ h
  rintro a b ⟨hrel, hne⟩
  rcases hrel with h' | ⟨he, hle⟩
  · exact Or.inl h'
  · exact Or.inr ⟨he, lt_of_le_of_ne hle (Ne.symm hne)⟩

theorem sparseSearch_length (sim : SimKernel) (r : CourseRetriever) (q : String) :
    (r.sparseSearch sim q).length = r.tfidf_matrix.length :=
  List.length_map _ _

theorem denseSearch_length (sim : SimKernel) (r : CourseRetriever) (q : String) :
    (r.denseSearch sim q).length = r.embeddings.length :=
  List.length_map _ _

theorem fuse_length (alpha : ℚ) (d s : List ℚ) :
    (fuse alpha d s).length = min d.length s.length :=
  List.length_zipWith _ _ _

theorem fuse_one (d s : List ℚ) (h : d.length = s.length) : fuse 1 d s = d := by
  induction d generalizing s with
  | nil => rfl
  | cons x xs ih =>
    cases s with
    | nil => simp at h
    | cons y ys =>
      show ((1 : ℚ) * x + (1 - 1) * y) :: fuse 1 xs ys = x :: xs
      rw [show (1 : ℚ) * x + (1 - 1) * y = x by ring, ih ys (by simpa using h)]

theorem fuse_zero (d s : List ℚ) (h : d.length = s.length) : fuse 0 d s = s := by
  induction d generalizing s with
  | nil => cases s with
    | nil => rfl
    | cons y ys => simp at h
  | cons x xs ih =>
    cases s with
    | nil => simp at h
    | cons y ys =>
      show ((0 : ℚ) * x + (1 - 0) * y) :: fuse 0 xs ys = y :: ys
      rw [show (0 : ℚ) * x + (1 - 0) * y = y by ring, ih ys (by simpa using h)]

theorem searchScores_sparse (sim : SimKernel) (r : CourseRetriever) (q : String)
    (alpha : ℚ) :
    r.searchScores sim q "sparse" alpha = .ok (r.sparseSearch sim q) := rfl

theorem searchScores_dense (sim : SimKernel) (r : CourseRetriever) (q : String)
    (alpha : ℚ) :
    r.searchScores sim q "dense" alpha = .ok (r.denseSearch sim q) := rfl

theorem searchScores_hybrid (sim : SimKernel) (r : CourseRetriever) (q : String)
    (alpha : ℚ) :
    r.searchScores sim q "hybrid" alpha =
      .ok (fuse alpha (r.denseSearch sim q) (r.sparseSearch sim q)) := rfl

theorem searchScores_invalid (sim : SimKernel) (r : CourseRetriever) (q : String)
    {mode : String} (alpha : ℚ) (h1 : mode ≠ "sparse") (h2 : mode ≠ "dense")
    (h3 : mode ≠ "hybrid") :
    r.searchScores sim q mode alpha = .error ("Invalid mode: " ++ mode) := by
  unfold CourseRetriever.searchScores
  rw [if_neg h1, if_neg h2, if_neg h3]

theorem pyTake_coe {α : Type} (k : ℕ) (l : List α) :
    pyTake (k : ℤ) l = l.take k := by
  unfold pyTake
  rw [if_pos (Int.natCast_nonneg k), Int.toNat_natCast]

theorem pySliceFrom1_coe {α : Type} (k : ℕ) (l : List α) :
    pySliceFrom1 (k : ℤ) l = (l.drop 1).take k := by
  unfold pySliceFrom1
  rw [if_pos (by omega : (-1 : ℤ) ≤ (k : ℤ)), Int.toNat_natCast]

theorem pyTake_sublist {α : Type} (k : ℤ) (l : List α) :
    (pyTake k l).Sublist l :=
  List.take_sublist _ _

theorem pyTake_length_neg {α : Type} {k : ℤ} (hk : k < 0) (l : List α) :
    (pyTake k l).length = ((l.length : ℤ) + k).toNat := by
  unfold pyTake
  rw [if_neg (not_le.mpr hk), List.length_take]
  have h : ((l.length : ℤ) + k).toNat ≤ l.length := by omega
  exact min_eq_left h

theorem search_eq_of_scores {sim : SimKernel} {r : CourseRetriever}
    {q mode : String} {alpha : ℚ} {scores : List ℚ} (k : ℤ)
    (h : r.searchScores sim q mode alpha = .ok scores) :
    r.search sim q mode k alpha =
      .ok (rankResults r scores (pyTake k (argsortDesc scores))) := by
  unfold CourseRetriever.search
  rw [h]
  rfl

theorem searchScores_ok_length {sim : SimKernel} {r : CourseRetriever}
    {q mode : String} {alpha : ℚ} {scores : List ℚ}
    (hwf : r.WF) (h : r.searchScores sim q mode alpha = .ok scores) :
    scores.length = r.course_codes.length := by
  unfold CourseRetriever.searchScores at h
  split_ifs at h
  · cases h
    rw [sparseSearch_length, hwf.tfidf_len]
  · cases h
    rw [denseSearch_length, hwf.emb_len]
  · cases h
    rw [fuse_length, denseSearch_length, sparseSearch_length, hwf.emb_len,
      hwf.tfidf_len, min_self]

theorem searchScores_isOk (sim : SimKernel) (r : CourseRetriever)
    (q : String) {mode : String} (alpha : ℚ)
    (hmode : mode = "sparse" ∨ mode = "dense" ∨ mode = "hybrid") :
    (r.searchScores sim q mode alpha).isOk = true := by
  rcases hmode with h | h | h <;> subst h <;> rfl

theorem search_ok_inv {sim : SimKernel} {r : CourseRetriever} {q mode : String}
    {k : ℤ} {alpha : ℚ} {res : List SearchResult}
    (h : r.search sim q mode k alpha = .ok res) :
    ∃ scores, r.searchScores sim q mode alpha = .ok scores ∧
      res = rankResults r scores (pyTake k (argsortDesc scores)) := by
  unfold CourseRetriever.search at h
  cases hs : r.searchScores sim q mode alpha with
  | ok scores =>
    rw [hs] at h
    refine ⟨scores, rfl, ?_⟩
    cases h
    rfl
  | error e =>
    rw [hs] at h
    cases h

theorem ranked_scores_sorted (r : CourseRetriever) (scores : List ℚ)
    {idxs : List ℕ} (hsub : idxs.Sublist (argsortDesc scores)) :
    ((rankResults r scores idxs).map SearchResult.score).Pairwise
      (fun a b => b ≤ a) := by
  have h : idxs.Pairwise (fun i j => argsortRel scores j i) :=
    List.Pairwise.sublist hsub (argsortDesc_sorted scores)
  rw [rankResults, List.map_map, List.pairwise_map]
  refine List.Pairwise.imp ?_ h
  intro i j hrel
  rcases hrel with h' | ⟨he, _⟩
  · exact le_of_lt h'
  · exact le_of_eq he

theorem sGet_replicate (n i : ℕ) : sGet (List.replicate n (0 : ℚ)) i = 0 := by
  induction n generalizing i with
  | zero => rfl
  | succ m ih =>
    cases i with
    | zero => rfl
    | succ i' => exact ih i'

theorem argsortDesc_replicate_zero (n : ℕ) :
    argsortDesc (List.replicate n (0 : ℚ)) = (List.range n).reverse := by
  have hs : (List.range n).Sorted (argsortRel (List.replicate n 0)) := by
    refine List.Pairwise.imp ?_ (List.pairwise_le_range n)
    intro i j hle
    exact Or.inr ⟨by rw [sGet_replicate, sGet_replicate], hle⟩
  rw [argsortDesc, argsort, List.length_replicate, hs.insertionSort_eq]

theorem sparseSearch_zero_query {sim : SimKernel} {r : CourseRetriever}
    {q : String} {d : ℕ}
    (hz : ∀ (n : ℕ) (v : List ℚ), sim (List.replicate n 0) v = 0)
    (hq : r.tfidf_vectorizer q = List.replicate d 0) :
    r.sparseSearch sim q = List.replicate r.tfidf_matrix.length 0 := by
  rw [List.eq_replicate_iff]
  refine ⟨sparseSearch_length sim r q, ?_⟩
  intro b hb
  rcases List.mem_map.mp hb with ⟨row, _, hrow⟩
  rw [← hrow, hq, hz]

theorem findSimilarScores_ok_length {sim : SimKernel} {r : CourseRetriever}
    {query_idx : ℕ} {mode : String} {alpha : ℚ} {sims : List ℚ}
    (hwf : r.WF) (h : r.findSimilarScores sim query_idx mode alpha = .ok sims) :
    sims.length = r.course_codes.length := by
  unfold CourseRetriever.findSimilarScores at h
  split_ifs at h
  · cases h
    rw [List.length_map, hwf.tfidf_len]
  · cases h
    rw [List.length_map, hwf.emb_len]
  · cases h
    rw [fuse_length, List.length_map, List.length_map, hwf.tfidf_len, hwf.emb_len,
      min_self]

theorem findSimilarScores_isOk (sim : SimKernel) (r : CourseRetriever)
    (query_idx : ℕ) {mode : String} (alpha : ℚ)
    (hmode : mode = "sparse" ∨ mode = "dense" ∨ mode = "hybrid") :
    (r.findSimilarScores sim query_idx mode alpha).isOk = true := by
  rcases hmode with h | h | h <;> subst h <;> rfl

theorem find_similar_mem_eq {sim : SimKernel} {r : CourseRetriever}
    {code mode : String} {k : ℤ} {alpha : ℚ} (hmem : code ∈ r.course_codes) :
    r.find_similar sim code mode k alpha =
      (r.findSimilarScores sim (r.course_codes.indexOf code) mode alpha).map
        fun sims => rankResults r sims (pySliceFrom1 k (argsortDesc sims)) := by
  unfold CourseRetriever.find_similar
  rw [if_pos hmem]

theorem objSearchScores_sparse (sim : SimKernel) (r : ObjectiveRetriever)
    (q : String) (alpha : ℚ) :
    r.searchScores sim q "sparse" alpha = .ok (r.sparseSearch sim q) := rfl

theorem objSearchScores_dense (sim : SimKernel) (r : ObjectiveRetriever)
    (q : String) (alpha : ℚ) :
    r.searchScores sim q "dense" alpha = .ok (r.denseSearch sim q) := rfl

theorem objSearchScores_hybrid (sim : SimKernel) (r : ObjectiveRetriever)
    (q : String) (alpha : ℚ) :
    r.searchScores sim q "hybrid" alpha =
      .ok (fuse alpha (r.denseSearch sim q) (r.sparseSearch sim q)) := rfl

theorem objSearch_eq_of_scores {sim : SimKernel} {r : ObjectiveRetriever}
    {q mode : String} {alpha : ℚ} {scores : List ℚ} (k : ℤ)
    (h : r.searchScores sim q mode alpha = .ok scores) :
    r.search sim q mode k alpha =
      .ok ((pyTake k (argsortDesc scores)).map (mkObjectiveResult r scores)) := by
  unfold ObjectiveRetriever.search
  rw [h]
  rfl

theorem ir_builder_ok_of_keys :
    ∀ courses : List (String × IRCourseData),
      (∀ p ∈ courses, p.2.title.isSome ∧ p.2.learning_objectives.isSome) →
      (build_course_documents_ir courses).isOk = true := by
  intro courses h
  induction courses with
  | nil => rfl
  | cons p rest ih =>
    obtain ⟨ht, ho⟩ := h p (List.mem_cons_self p rest)
    rcases Option.isSome_iff_exists.mp ht with ⟨t, ht2⟩
    rcases Option.isSome_iff_exists.mp ho with ⟨o, ho2⟩
    have hrest := ih (fun q hq => h q (List.mem_cons_of_mem _ hq))
    cases hr : build_course_documents_ir rest with
    | error e => rw [hr] at hrest; cases hrest
    | ok out =>
      obtain ⟨p1, p2⟩ := p
      obtain ⟨out1, out2, out3⟩ := out
      simp only at ht2 ho2
      simp only [build_course_documents_ir, dictGet, ht2, ho2, hr]
      rfl

theorem build_course_documents_length
    (dumps : List (String × String) → String) :
    ∀ cs : List RawCourse, (build_course_documents dumps cs).1.length = cs.length := by
  intro cs
  induction cs with
  | nil => rfl
  | cons c rest ih =>
    show ((build_course_documents dumps rest).1.length + 1) = rest.length + 1
    rw [ih]

theorem unitSim_zero (n : ℕ) (v : List ℚ) :
    unitSim (List.replicate n 0) v = 0 := by
  unfold unitSim
  rw [if_pos (Or.inl fun x hx => List.eq_of_mem_replicate hx)]

theorem search_length_of_scores {sim : SimKernel} {r : CourseRetriever}
    {q mode : String} {alpha : ℚ} {scores : List ℚ} (k : ℕ)
    (h : r.searchScores sim q mode alpha = .ok scores) :
    (r.search sim q mode (k : ℤ) alpha).map List.length =
      .ok (min k scores.length) := by
  rw [search_eq_of_scores (k : ℤ) h]
  show Except.ok (rankResults r scores (pyTake (k : ℤ) (argsortDesc scores))).length =
    Except.ok (min k scores.length)
  rw [pyTake_coe, rankResults, List.length_map, List.length_take,
    argsortDesc_length]

theorem objSparseSearch_length (sim : SimKernel) (r : ObjectiveRetriever)
    (q : String) :
    (r.sparseSearch sim q).length = r.tfidf_matrix.length :=
  List.length_map _ _

theorem objDenseSearch_length (sim : SimKernel) (r : ObjectiveRetriever)
    (q : String) :
    (r.denseSearch sim q).length = r.embeddings.length :=
  List.length_map _ _

theorem objSearch_length_of_scores {sim : SimKernel} {r : ObjectiveRetriever}
    {q mode : String} {alpha : ℚ} {scores : List ℚ} (k : ℕ)
    (h : r.searchScores sim q mode alpha = .ok scores) :
    (r.search sim q mode (k : ℤ) alpha).map List.length =
      .ok (min k scores.length) := by
  rw [objSearch_eq_of_scores (k : ℤ) h]
  show Except.ok ((pyTake (k : ℤ) (argsortDesc scores)).map
      (mkObjectiveResult r scores)).length =
    Except.ok (min k scores.length)
  rw [pyTake_coe, List.length_map, List.length_take, argsortDesc_length]

/-- C1: for every well-formed index state and every query, hybrid search with
alpha = 1 returns exactly the dense-mode results and hybrid search with
alpha = 0 returns exactly the sparse-mode results — same ranking and same
scores, with exact equality in the exact-arithmetic model (the spec asks
for this modulo floating-point tolerance).  The alpha argument of the
single-mode call is irrelevant, so it is universally quantified. -/
theorem hybrid_fusion_identity (sim : SimKernel) (r : CourseRetriever)
    (q : String) (k : ℤ) (alpha' : ℚ) (hwf : r.WF) :
    r.search sim q "hybrid" k 1 = r.search sim q "dense" k alpha' ∧
    r.search sim q "hybrid" k 0 = r.search sim q "sparse" k alpha' := by
  have hlen : (r.denseSearch sim q).length = (r.sparseSearch sim q).length := by
    rw [denseSearch_length, sparseSearch_length, hwf.emb_len, hwf.tfidf_len]
  constructor
  · rw [search_eq_of_scores k (searchScores_hybrid sim r q 1),
      search_eq_of_scores k (searchScores_dense sim r q alpha'),
      fuse_one _ _ hlen]
  · rw [search_eq_of_scores k (searchScores_hybrid sim r q 0),
      search_eq_of_scores k (searchScores_sparse sim r q alpha'),
      fuse_zero _ _ hlen]

theorem hybrid_fusion_identity_check :
    CourseRetriever.search headSim distinctR "q" "hybrid" 5 1 =
      CourseRetriever.search headSim distinctR "q" "dense" 5 (1/2) ∧
    CourseRetriever.search headSim distinctR "q" "hybrid" 5 0 =
      CourseRetriever.search headSim distinctR "q" "sparse" 5 (1/2) :=
  hybrid_fusion_identity headSim distinctR "q" 5 (1/2)
    ⟨by decide, by decide, by decide, by decide⟩

/-- C2 (counterexample): on a two-document index ingested in order A, B, the
empty sparse query gives both documents score 0, but the results come back
in the order B, A — the reverse of ingestion order, because the code ranks
with np.argsort(scores)[::-1] and the reversal flips the tie order. -/
theorem tiebreak_counterexample :
    dupR.course_codes = ["A", "B"] ∧
    CourseRetriever.search unitSim dupR "" "sparse" 5 (1/2) =
      .ok [{ course_code := "B", title := "Course B", score := 0, fields := [] },
        { course_code := "A", title := "Course A", score := 0, fields := [] }] := by
  exact ⟨rfl, by decide⟩

/-- C2 (amended): the ingestion-order tie-break does not hold.  On indexes
small enough to fall entirely in np.argsort's insertion-sort path (at most
16 documents), which is stable, equal scores come back in reverse
ingestion order: the ranked index sequence is sorted by strictly
descending score with ties in strictly descending document position, and a
sparse-mode query whose text vectorizes to the all-zero vector (for a
kernel giving zero vectors similarity 0, sklearn's convention) returns the
documents with score 0 in reverse ingestion order.  Above that size the
default quicksort documents no tie order at all, so no tie-order guarantee
is claimed there.  The size bounds are faithfulness side conditions
restricting the statement to where the Lean argsort model (stable at every
size) coincides with numpy; the formal proof does not consume them. -/
theorem ties_reverse_ingestion_order (sim : SimKernel) (r : CourseRetriever)
    (q : String) (k : ℕ) (alpha : ℚ) (d : ℕ)
    (_hsmall : r.tfidf_matrix.length ≤ 16)
    (hz : ∀ (n : ℕ) (v : List ℚ), sim (List.replicate n 0) v = 0)
    (hq : r.tfidf_vectorizer q = List.replicate d 0) :
    (∀ scores : List ℚ, scores.length ≤ 16 →
      (argsortDesc scores).Pairwise
        (fun i j => sGet scores j < sGet scores i ∨
          (sGet scores j = sGet scores i ∧ j < i))) ∧
    r.search sim q "sparse" (k : ℤ) alpha =
      .ok (rankResults r (List.replicate r.tfidf_matrix.length 0)
        ((List.range r.tfidf_matrix.length).reverse.take k)) := by
  refine ⟨fun scores _ => argsortDesc_strict scores, ?_⟩
  rw [search_eq_of_scores (k : ℤ) (searchScores_sparse sim r q alpha),
    sparseSearch_zero_query hz hq, argsortDesc_replicate_zero, pyTake_coe]

theorem ties_reverse_ingestion_order_check :
    CourseRetriever.search unitSim dupR "" "sparse" ((5 : ℕ) : ℤ) (1/2) =
      .ok (rankResults dupR (List.replicate dupR.tfidf_matrix.length 0)
        ((List.range dupR.tfidf_matrix.length).reverse.take 5)) :=
  (ties_reverse_ingestion_order unitSim dupR "" 5 (1/2) 1 (by decide)
    unitSim_zero rfl).2

/-- C3 (code bug): on an index holding two documents with identical stored
vectors (ingested as A then B), find_similar("A") returns document A
itself.  The code drops only the first ranked index, assuming the source
document ranks first, but A and B tie at similarity 1 and the reversed
argsort places B first, so B is dropped and A is returned — contradicting
the method's own docstring "excluding the query course itself". -/
theorem find_similar_returns_source_on_duplicate :
    CourseRetriever.find_similar unitSim dupR "A" "sparse" 10 (1/2) =
      .ok [{ course_code := "A", title := "Course A", score := 1, fields := [] }] := by
  decide

/-- C4 (counterexample): neither top_k nor alpha is validated.  Search with
top_k = 0 (violating top_k >= 1) and alpha = 5 (outside [0,1]) returns an
ordinary empty result instead of the InvalidArgument error the claim
demands, and so does find_similar; and a negative top_k = -1 over the
3-document index is not an error either — Python's slice [:top_k] keeps
all but the last result, returning 2 results. -/
theorem no_topk_alpha_validation :
    CourseRetriever.search headSim distinctR "q" "sparse" 0 5 = .ok [] ∧
    CourseRetriever.find_similar headSim distinctR "A" "sparse" 0 7 = .ok [] ∧
    (CourseRetriever.search headSim distinctR "q" "sparse" (-1) 5).map
        List.length = .ok 2 := by
  refine ⟨by decide, by decide, by decide⟩

/-- C4 (amended): the only argument search and find_similar validate is
mode: a recognized mode never raises, for every integer top_k and every
alpha; an unrecognized mode raises ValueError("Invalid mode: ...") — except
that find_similar checks the identifier first and returns the empty list
for an unknown identifier even when the mode is invalid.  top_k and alpha
are never validated: top_k = 0 yields an empty list, a negative top_k is
interpreted by Python slice semantics — for a well-formed index over N
documents, search with top_k < 0 returns max(0, N + top_k) results — and
alpha outside [0,1] is used as-is. -/
theorem invalid_mode_only_validation (sim : SimKernel) (r : CourseRetriever)
    (q code : String) (alpha : ℚ) :
    (∀ mode, (mode = "sparse" ∨ mode = "dense" ∨ mode = "hybrid") →
      ∀ k : ℤ, (r.search sim q mode k alpha).isOk = true) ∧
    (∀ mode, mode ≠ "sparse" → mode ≠ "dense" → mode ≠ "hybrid" →
      ∀ k : ℤ, r.search sim q mode k alpha = .error ("Invalid mode: " ++ mode)) ∧
    (∀ mode, code ∈ r.course_codes → mode ≠ "sparse" → mode ≠ "dense" →
      mode ≠ "hybrid" → ∀ k : ℤ,
      r.find_similar sim code mode k alpha = .error ("Invalid mode: " ++ mode)) ∧
    (∀ mode, code ∉ r.course_codes → ∀ k : ℤ,
      r.find_similar sim code mode k alpha = .ok []) ∧
    (∀ mode, (mode = "sparse" ∨ mode = "dense" ∨ mode = "hybrid") →
      ∀ k : ℤ, k < 0 → r.WF →
      (r.search sim q mode k alpha).map List.length =
        .ok (((r.course_codes.length : ℤ) + k).toNat)) := by
  refine ⟨?_, ?_, ?_, ?_, ?_⟩
  · intro mode hmode k
    rcases hmode with h | h | h <;> subst h
    · rw [search_eq_of_scores k (searchScores_sparse sim r q alpha)]; rfl
    · rw [search_eq_of_scores k (searchScores_dense sim r q alpha)]; rfl
    · rw [search_eq_of_scores k (searchScores_hybrid sim r q alpha)]; rfl
  · intro mode h1 h2 h3 k
    unfold CourseRetriever.search
    rw [searchScores_invalid sim r q alpha h1 h2 h3]
    rfl
  · intro mode hmem h1 h2 h3 k
    rw [find_similar_mem_eq hmem]
    unfold CourseRetriever.findSimilarScores
    rw [if_neg h1, if_neg h2, if_neg h3]
    rfl
  · intro mode hnm k
    unfold CourseRetriever.find_similar
    rw [if_neg hnm]
  · intro mode hmode k hk hwf
    cases hs : r.searchScores sim q mode alpha with
    | error e =>
      have hok := searchScores_isOk sim r q alpha hmode
      rw [hs] at hok
      cases hok
    | ok scores =>
      have hlen := searchScores_ok_length hwf hs
      rw [search_eq_of_scores k hs]
      show Except.ok (rankResults r scores (pyTake k (argsortDesc scores))).length =
        Except.ok (((r.course_codes.length : ℤ) + k).toNat)
      rw [rankResults, List.length_map, pyTake_length_neg hk, argsortDesc_length,
        hlen]

theorem invalid_mode_only_validation_check :
    CourseRetriever.search headSim distinctR "q" "bogus" 3 (1/2) =
      .error ("Invalid mode: " ++ "bogus") :=
  (invalid_mode_only_validation headSim distinctR "q" "A" (1/2)).2.1 "bogus"
    (by decide) (by decide) (by decide) 3

/-- C5: for every well-formed index, query, valid mode and alpha, search
with top_k = k succeeds and returns exactly min(k, number of documents)
results — for both the course-level retriever and the objective-level
retriever; in particular a top_k beyond the document count is not an
error. -/
theorem search_result_count (sim : SimKernel) (r : CourseRetriever)
    (r2 : ObjectiveRetriever) (q mode : String) (k : ℕ) (alpha : ℚ)
    (hwf : r.WF) (hwf2 : r2.WF)
    (hmode : mode = "sparse" ∨ mode = "dense" ∨ mode = "hybrid") :
    (r.search sim q mode (k : ℤ) alpha).map List.length =
      .ok (min k r.course_codes.length) ∧
    (r2.search sim q mode (k : ℤ) alpha).map List.length =
      .ok (min k r2.metadata.length) := by
  rcases hmode with h | h | h <;> subst h
  · constructor
    · rw [search_length_of_scores k (searchScores_sparse sim r q alpha),
        sparseSearch_length, hwf.tfidf_len]
    · rw [objSearch_length_of_scores k (objSearchScores_sparse sim r2 q alpha),
        objSparseSearch_length, hwf2.tfidf_len]
  · constructor
    · rw [search_length_of_scores k (searchScores_dense sim r q alpha),
        denseSearch_length, hwf.emb_len]
    · rw [objSearch_length_of_scores k (objSearchScores_dense sim r2 q alpha),
        objDenseSearch_length, hwf2.emb_len]
  · constructor
    · rw [search_length_of_scores k (searchScores_hybrid sim r q alpha),
        fuse_length, denseSearch_length, sparseSearch_length, hwf.emb_len,
        hwf.tfidf_len, min_self]
    · rw [objSearch_length_of_scores k (objSearchScores_hybrid sim r2 q alpha),
        fuse_length, objDenseSearch_length, objSparseSearch_length, hwf2.emb_len,
        hwf2.tfidf_len, min_self]

theorem search_result_count_check :
    (CourseRetriever.search headSim distinctR "q" "sparse" ((2 : ℕ) : ℤ)
        (1/2)).map List.length =
      .ok (min 2 distinctR.course_codes.length) ∧
    (ObjectiveRetriever.search headSim distinctObjR "q" "sparse" ((2 : ℕ) : ℤ)
        (1/2)).map List.length =
      .ok (min 2 distinctObjR.metadata.length) :=
  search_result_count headSim distinctR distinctObjR "q" "sparse" 2 (1/2)
    ⟨by decide, by decide, by decide, by decide⟩ ⟨by decide, by decide⟩ (Or.inl rfl)

/-- C6: whenever search succeeds, the sequence of scores in its results is
sorted non-increasing: every result's score is greater than or equal to the
score of every later result. -/
theorem search_scores_nonincreasing (sim : SimKernel) (r : CourseRetriever)
    (q mode : String) (k : ℤ) (alpha : ℚ) (res : List SearchResult)
    (hres : r.search sim q mode k alpha = .ok res) :
    (res.map SearchResult.score).Pairwise (fun a b => b ≤ a) := by
  rcases search_ok_inv hres with ⟨scores, _, rfl⟩
  exact ranked_scores_sorted r scores (pyTake_sublist k (argsortDesc scores))

theorem search_scores_nonincreasing_check :
    (([{ course_code := "C", title := "Course C", score := 3, fields := [] },
      { course_code := "A", title := "Course A", score := 1, fields := [] },
      { course_code := "B", title := "Course B", score := 0, fields := [] }] :
        List SearchResult).map SearchResult.score).Pairwise (fun a b => b ≤ a) :=
  search_scores_nonincreasing headSim distinctR "q" "sparse" 5 (1/2) _ (by decide)

/-- C7: find_similar with an identifier that is not among the indexed
course codes returns the empty result list and raises nothing, for every
mode string (even an invalid one), every top_k and every alpha. -/
theorem find_similar_unknown_code (sim : SimKernel) (r : CourseRetriever)
    (code mode : String) (k : ℤ) (alpha : ℚ) (h : code ∉ r.course_codes) :
    r.find_similar sim code mode k alpha = .ok [] := by
  unfold CourseRetriever.find_similar
  rw [if_neg h]

theorem find_similar_unknown_code_check :
    CourseRetriever.find_similar headSim distinctR "Z" "dense" 10 (1/2) = .ok [] :=
  find_similar_unknown_code headSim distinctR "Z" "dense" 10 (1/2) (by decide)

/-- C8 (counterexample): the information-retrieval document builder is not
total on raw records: a record missing its title key makes the build fail
with a KeyError instead of degrading to the empty string. -/
theorem ir_builder_missing_title_fails :
    build_course_documents_ir
      [("01005", { title := none, learning_objectives := some ["obj"] })] =
      .error "KeyError: title" := rfl

/-- C8 (amended): the RAG document builder never fails on missing fields —
a record with missing fields builds exactly the same text as the record
with those fields replaced by empty defaults, and every record yields a
document — while the information-retrieval builder succeeds precisely when
every record carries the title and learning-objectives keys (missing keys
fail with a KeyError, see the counterexample). -/
theorem builder_missing_fields_degrade
    (dumps : List (String × String) → String) :
    (∀ c : RawCourse,
      build_course_text dumps c = build_course_text dumps (fillDefaults c)) ∧
    (∀ cs : List RawCourse,
      (build_course_documents dumps cs).1.length = cs.length) ∧
    (∀ courses : List (String × IRCourseData),
      (∀ p ∈ courses, p.2.title.isSome ∧ p.2.learning_objectives.isSome) →
      (build_course_documents_ir courses).isOk = true) :=
  ⟨fun _ => rfl, build_course_documents_length dumps, ir_builder_ok_of_keys⟩

theorem builder_missing_fields_degrade_check :
    (build_course_text (fun _ => "JSON")
        { course_code := none, title := none, fields := none,
          learning_objectives := none, content := none } =
      build_course_text (fun _ => "JSON")
        (fillDefaults
          { course_code := none, title := none, fields := none,
            learning_objectives := none, content := none })) ∧
    (build_course_documents_ir
      [("01005", { title := some "T", learning_objectives := some ["o"] })]).isOk =
      true :=
  ⟨(builder_missing_fields_degrade (fun _ => "JSON")).1 _,
    (builder_missing_fields_degrade (fun _ => "JSON")).2.2 _ (by decide)⟩

/-- C9: query operations do not mutate the index: after an arbitrary
sequence of search and find_similar calls, the retriever state — document
texts, metadata, identifier sequence, fitted vectorizer, TF-IDF matrix,
model and embeddings — is identical to the state before.  The
state-passing embedding returns the state each method leaves behind; the
method bodies contain no assignment to any state component. -/
theorem queries_preserve_index_state (sim : SimKernel) (r : CourseRetriever)
    (ops : List QueryOp) : runQueries sim r ops = r := by
  induction ops generalizing r with
  | nil => rfl
  | cons op rest ih =>
    show runQueries sim (runQuery sim r op).1 rest = r
    have h1 : (runQuery sim r op).1 = r := by cases op <;> rfl
    rw [h1]
    exact ih r

/-- C10: find_similar over a well-formed index of N documents, called with
a known identifier, a valid mode and any top_k, succeeds and returns
exactly min(top_k, N - 1) results; over a single-document index the result
is empty. -/
theorem find_similar_result_count (sim : SimKernel) (r : CourseRetriever)
    (code mode : String) (k : ℕ) (alpha : ℚ) (hwf : r.WF)
    (hmode : mode = "sparse" ∨ mode = "dense" ∨ mode = "hybrid")
    (hmem : code ∈ r.course_codes) :
    (r.find_similar sim code mode (k : ℤ) alpha).map List.length =
      .ok (min k (r.course_codes.length - 1)) := by
  rw [find_similar_mem_eq hmem]
  cases hs : r.findSimilarScores sim (r.course_codes.indexOf code) mode alpha with
  | error e =>
    have hok := findSimilarScores_isOk sim r (r.course_codes.indexOf code) alpha hmode
    rw [hs] at hok
    cases hok
  | ok sims =>
    have hlen := findSimilarScores_ok_length hwf hs
    show Except.ok (rankResults r sims (pySliceFrom1 (k : ℤ) (argsortDesc sims))).length =
      Except.ok (min k (r.course_codes.length - 1))
    rw [pySliceFrom1_coe, rankResults, List.length_map, List.length_take,
      List.length_drop, argsortDesc_length, hlen]

theorem find_similar_result_count_check :
    (CourseRetriever.find_similar headSim distinctR "A" "sparse" ((10 : ℕ) : ℤ)
        (1/2)).map List.length =
      .ok (min 10 (distinctR.course_codes.length - 1)) :=
  find_similar_result_count headSim distinctR "A" "sparse" 10 (1/2)
    ⟨by decide, by decide, by decide, by decide⟩ (Or.inl rfl) (by decide)

end CourseSearch
